import Mathlib

/-!
Shallow embedding of the core logic of the "The Daily Journalist" news
application (Django project, apps `news` / `news_project`): the data model
(`news/models.py`), the access-control predicates and page views
(`news/views.py`), the REST API layer (`news/api_views.py`,
`news/serializers.py`) and the post-save signal (`news/signals.py`).

Machine conventions: database rows are Lean structures, primary keys are
`Nat`, the two self-referential many-to-many follow relations and the
auth-group membership table are `Finset`s of key pairs, and the role
`TextChoices` field is the stored `String` exactly as in the source.
Request-cycle effects (email send, outbound HTTP) are modelled by boolean
oracles saying whether the effectful call succeeds; an exception that the
view lets propagate is a distinct outcome constructor.
-/

/-- Embeds the custom `User` model of `news/models.py` (extending Django's
`AbstractUser`): primary key, the `role` CharField (stored strings
"READER" / "JOURNALIST" / "EDITOR"), email, the `is_superuser` and
`is_staff` flags inherited from `AbstractUser`, and `is_authenticated`
(false exactly for Django's `AnonymousUser`). The two many-to-many
relations live in `DB`, keyed by user id. -/
structure User where
  id : Nat
  role : String
  email : String
  is_superuser : Bool
  is_authenticated : Bool
  is_staff : Bool
deriving DecidableEq

/-- Embeds the `Article` model of `news/models.py`: title, content, the
`author` foreign key (user id), the `approved` flag (default false) and
the nullable `publisher` foreign key. The `created_at` timestamp is not
modelled (no claim touches it). -/
structure Article where
  id : Nat
  title : String
  content : String
  author : Nat
  approved : Bool
  publisher : Option Nat
deriving DecidableEq

/-- The persistent store: the user and article tables, the two
self-referential many-to-many follow relations of `User`
(`subscribed_publishers` with related_name `subscribed_readers`, and
`subscribed_journalists` with related_name `journalist_followers`), each a
set of (follower id, followee id) edges with no duplicate edges, and the
auth-group membership table of (user id, group name) pairs maintained by
`news/signals.py`. -/
structure DB where
  users : List User
  articles : List Article
  subscribedPublishers : Finset (Nat × Nat)
  subscribedJournalists : Finset (Nat × Nat)
  groups : Finset (Nat × String)
deriving DecidableEq

/-- Row lookup by primary key, as `get_object_or_404(User, id=user_id)` /
`User.objects.get(id=...)`. -/
def findUser (db : DB) (userId : Nat) : Option User :=
  db.users.find? (fun u => u.id == userId)

/-- Row lookup by primary key, as `get_object_or_404(Article, id=article_id)`. -/
def findArticle (db : DB) (articleId : Nat) : Option Article :=
  db.articles.find? (fun a => a.id == articleId)

/-- Persisting a row with `save()`: UPDATE the row whose key matches,
INSERT at the end otherwise. -/
def upsertBy (key : α → Nat) (l : List α) (x : α) : List α :=
  if l.any (fun y => key y == key x) then
    l.map (fun y => if key y == key x then x else y)
  else
    l ++ [x]

lemma find?_map_replace (key : α → Nat) (l : List α) (x : α)
    (h : l.any (fun y => key y == key x) = true) :
    (l.map (fun y => if key y == key x then x else y)).find?
      (fun y => key y == key x) = some x := by
  induction l with
  | nil => simp at h
  | cons a as ih =>
    by_cases hk : key a == key x
    · simp [List.find?, hk]
    · simp only [List.any_cons, Bool.or_eq_true] at h
      rcases h with h | h
      · exact absurd h hk
      · rw [Bool.not_eq_true] at hk
        simp only [List.map_cons, List.find?, hk, Bool.false_eq_true,
          if_false]
        exact ih h

lemma find?_append_single (key : α → Nat) (l : List α) (x : α)
    (h : l.any (fun y => key y == key x) = false) :
    (l ++ [x]).find? (fun y => key y == key x) = some x := by
  induction l with
  | nil => simp [List.find?]
  | cons a as ih =>
    simp only [List.any_cons, Bool.or_eq_false_iff] at h
    simp only [List.cons_append, List.find?, h.1]
    exact ih h.2

lemma find?_upsertBy (key : α → Nat) (l : List α) (x : α) :
    (upsertBy key l x).find? (fun y => key y == key x) = some x := by
  unfold upsertBy
  by_cases h : l.any (fun y => key y == key x) = true
  · rw [if_pos h]; exact find?_map_replace key l x h
  · rw [if_neg h]
    exact find?_append_single key l x (Bool.eq_false_iff.mpr h)

/-- Persisting a user row. -/
def persistUser (db : DB) (u : User) : DB :=
  { db with users := upsertBy User.id db.users u }

/-- Persisting an article row, as `article.save()`. -/
def saveArticle (db : DB) (a : Article) : DB :=
  { db with articles := upsertBy Article.id db.articles a }

-- ACCESS CONTROL (page layer, `news/views.py` lines 21-37)

/-- Embeds `is_editor` of `news/views.py`: authenticated Editor or
Superuser. -/
def is_editor (u : User) : Bool :=
  u.is_authenticated && (u.role == "EDITOR" || u.is_superuser)

/-- Embeds `is_journalist` of `news/views.py`: authenticated Journalist or
Superuser. -/
def is_journalist (u : User) : Bool :=
  u.is_authenticated && (u.role == "JOURNALIST" || u.is_superuser)

/-- Embeds `is_staff_member` of `news/views.py`: authenticated user whose
role is JOURNALIST or EDITOR, or a superuser. -/
def is_staff_member (u : User) : Bool :=
  u.is_authenticated && (u.role == "JOURNALIST" || u.role == "EDITOR"
    || u.is_superuser)

-- ACCESS CONTROL (API layer, `news/api_views.py` lines 22-30)

/-- Embeds `IsJournalist.has_permission` of `news/api_views.py`:
`request.user.is_authenticated and request.user.role == "JOURNALIST"`.
Note: unlike the page-layer `is_journalist`, there is no superuser
clause. -/
def IsJournalist.has_permission (u : User) : Bool :=
  u.is_authenticated && u.role == "JOURNALIST"

/-- Embeds `IsEditor.has_permission` of `news/api_views.py`: authenticated
Editor or superuser. -/
def IsEditor.has_permission (u : User) : Bool :=
  u.is_authenticated && (u.role == "EDITOR" || u.is_superuser)

-- SUBSCRIPTION TOGGLER (`news/views.py` lines 171-196)

/-- Outcome of the `toggle_subscribe` view. `onlyReadersError` is the
early return for non-Reader actors: `messages.error("Only Readers can
subscribe.")` followed by a redirect back — the Forbidden case of the
error taxonomy. `redirectBack` is the final redirect to the referer. -/
inductive ToggleOutcome where
  | onlyReadersError
  | notFound
  | redirectBack
deriving DecidableEq

/-- Embeds the `toggle_subscribe` view of `news/views.py`. The acting user
has passed `login_required`. `target.journalist_followers` is the reverse
accessor of `subscribed_journalists`, so membership of the actor in it is
the edge (actor.id, target.id) of that relation; likewise
`subscribed_readers` for `subscribed_publishers`. An unrecognised
`follow_type` matches no branch and falls through to the redirect. -/
def toggle_subscribe (db : DB) (actor : User) (userId : Nat)
    (followType : String) : ToggleOutcome × DB :=
  if actor.role != "READER" then
    (.onlyReadersError, db)
  else
    match findUser db userId with
    | none => (.notFound, db)
    | some target =>
      if followType == "journalist" then
        if (actor.id, target.id) ∈ db.subscribedJournalists then
          (.redirectBack, { db with subscribedJournalists :=
            db.subscribedJournalists.erase (actor.id, target.id) })
        else
          (.redirectBack, { db with subscribedJournalists :=
            (insert (actor.id, target.id) db.subscribedJournalists) })
      else if followType == "publisher" then
        if (actor.id, target.id) ∈ db.subscribedPublishers then
          (.redirectBack, { db with subscribedPublishers :=
            db.subscribedPublishers.erase (actor.id, target.id) })
        else
          (.redirectBack, { db with subscribedPublishers :=
            (insert (actor.id, target.id) db.subscribedPublishers) })
      else
        (.redirectBack, db)

-- APPROVAL WORKFLOW (`news/views.py` lines 106-165,
-- `news/api_views.py` lines 96-127)

/-- The users iterated by `article.publisher.subscribed_readers.all()`:
followers of the given publisher through `subscribed_publishers`. -/
def subscribedReadersOf (db : DB) (publisherId : Nat) : List User :=
  db.users.filter (fun u => decide ((u.id, publisherId) ∈
    db.subscribedPublishers))

/-- The users iterated by `article.author.journalist_followers.all()`:
followers of the given journalist through `subscribed_journalists`. -/
def journalistFollowersOf (db : DB) (journalistId : Nat) : List User :=
  db.users.filter (fun u => decide ((u.id, journalistId) ∈
    db.subscribedJournalists))

/-- The `recipient_list` built by both approval handlers before
`send_mail`: `settings.EMAIL_HOST_USER` first, then the non-empty emails
of the publisher's subscribed readers (when the article has a publisher),
then the non-empty emails of the author's journalist followers.
`host` stands for `settings.EMAIL_HOST_USER`, read from the secrets file
at runtime. -/
def approvalRecipients (host : String) (db : DB) (a : Article) :
    List String :=
  let base : List String := [host]
  let withPub : List String :=
    match a.publisher with
    | some pid =>
        base ++ ((subscribedReadersOf db pid).filter
          (fun r => r.email != "")).map (fun r => r.email)
    | none => base
  withPub ++ ((journalistFollowersOf db a.author).filter
    (fun r => r.email != "")).map (fun r => r.email)

/-- The deduplicated recipient list `list(set(recipient_list))` passed to
`send_mail` (modelled up to order by `List.dedup`). -/
def approvalRecipientSet (host : String) (db : DB) (a : Article) :
    List String :=
  (approvalRecipients host db a).dedup

/-- Outcome of the page-layer `approve_article` view. `emailFailure`: the
`send_mail` call with `fail_silently=False` raised and the exception
propagates out of the view. `published s`: steps 1-4 completed, the
social-announce POST outcome `s` only selects between the success and the
error message before the redirect to the editor dashboard. `formRedirect`:
the non-POST branch redirecting to the index. -/
inductive ApproveOutcome where
  | notFound
  | formRedirect
  | emailFailure
  | published (socialOk : Bool)
deriving DecidableEq

/-- Embeds the `approve_article` view of `news/views.py` (the acting user
has passed `login_required` and `user_passes_test(is_editor)`). `emailOk`
says whether the SMTP send succeeds, `socialOk` whether the
jsonplaceholder POST succeeds. The article is saved approved before
`send_mail` is called, and a send failure propagates without undoing the
save; the social call is wrapped in try/except and never fatal. -/
def approve_article (host : String) (db : DB) (articleId : Nat)
    (isPost emailOk socialOk : Bool) : ApproveOutcome × DB :=
  match findArticle db articleId with
  | none => (.notFound, db)
  | some article =>
    if isPost then
      let approvedArticle := { article with approved := true }
      let db1 := saveArticle db approvedArticle
      let _recipients := approvalRecipientSet host db1 approvedArticle
      if emailOk then (.published socialOk, db1)
      else (.emailFailure, db1)
    else
      (.formRedirect, db)

/-- Outcome of the API `ArticleViewSet.approve` action. `emailFailure`:
`send_mail(..., fail_silently=False)` raised, surfacing as a server
error. `ok recipients` is the HTTP 200 response, recording the
deduplicated recipient list the notification was sent to. -/
inductive ApiApproveOutcome where
  | notFound
  | emailFailure
  | ok (recipients : List String)
deriving DecidableEq

/-- Embeds the `approve` action of `ArticleViewSet` in
`news/api_views.py` (permission `IsEditor` already passed). Same shape as
the page view: save the approved article, build the recipient list, send
with `fail_silently=False`; no social-announce step. -/
def apiApprove (host : String) (db : DB) (articleId : Nat)
    (emailOk : Bool) : ApiApproveOutcome × DB :=
  match findArticle db articleId with
  | none => (.notFound, db)
  | some article =>
    let approvedArticle := { article with approved := true }
    let db1 := saveArticle db approvedArticle
    if emailOk then
      (.ok (approvalRecipientSet host db1 approvedArticle), db1)
    else
      (.emailFailure, db1)

-- USER SAVE (`news/models.py` lines 39-61, `news/signals.py` lines 14-29)

/-- Embeds the `assign_user_to_group` post_save receiver of
`news/signals.py`: `get_or_create` the group named after `instance.role`
and add the user to it when not already a member; memberships are never
removed. -/
def assign_user_to_group (db : DB) (u : User) : DB :=
  { db with groups := insert (u.id, u.role) db.groups }

/-- Embeds `User.save` of `news/models.py`: (1) recompute `is_staff` from
the role, (2) persist via `super().save()` — which fires the post_save
signal `assign_user_to_group` — then (3) for a Journalist or Editor clear
both subscription relations the user holds as follower
(`subscribed_publishers.clear()` and `subscribed_journalists.clear()`;
the `self.pk` guard always holds after a save has assigned the key). -/
def userSave (db : DB) (u : User) : DB :=
  let u' := { u with is_staff :=
    u.role == "JOURNALIST" || u.role == "EDITOR" }
  let db1 := assign_user_to_group (persistUser db u') u'
  if u'.role == "JOURNALIST" || u'.role == "EDITOR" then
    { db1 with
      subscribedPublishers :=
        db1.subscribedPublishers.filter (fun e => e.1 ≠ u'.id),
      subscribedJournalists :=
        db1.subscribedJournalists.filter (fun e => e.1 ≠ u'.id) }
  else
    db1

-- ARTICLE EDIT AND DELETE (`news/views.py` lines 247-285,
-- `news/serializers.py` lines 23-46)

/-- The three truthiness cases of the posted `publisher` form field in
`edit_article`: the literal "independent" option, a chosen editor id, or
an empty/absent value (which leaves the publisher unchanged). -/
inductive PubField where
  | independent
  | chosen (id : Nat)
  | blank
deriving DecidableEq

/-- The publisher handling of `edit_article`'s POST branch: "independent"
clears the publisher, a truthy id overwrites it, an empty value leaves it
unchanged. -/
def editPublisherField (pub : PubField) (old : Option Nat) : Option Nat :=
  match pub with
  | .independent => none
  | .chosen pid => some pid
  | .blank => old

/-- Outcome of the `edit_article` view. `forbidden` is the
`HttpResponseForbidden("Permission denied.")` for a user who is neither
the author nor an EDITOR; `renderForm` the non-POST branch. -/
inductive EditOutcome where
  | notFound
  | forbidden
  | renderForm
  | updatedRedirect
deriving DecidableEq

/-- Embeds the `edit_article` view of `news/views.py` (past
`login_required`): load the article, reject non-author non-EDITOR actors,
then on POST overwrite title and content, apply the publisher field, set
`approved = False`, and save. -/
def edit_article (db : DB) (actor : User) (articleId : Nat)
    (isPost : Bool) (newTitle newContent : String) (pub : PubField) :
    EditOutcome × DB :=
  match findArticle db articleId with
  | none => (.notFound, db)
  | some article =>
    if actor.id != article.author && actor.role != "EDITOR" then
      (.forbidden, db)
    else if isPost then
      let newPublisher : Option Nat := editPublisherField pub
        article.publisher
      let article' := { article with
        title := newTitle, content := newContent,
        publisher := newPublisher, approved := false }
      (.updatedRedirect, saveArticle db article')
    else
      (.renderForm, db)

/-- Embeds an update through the API layer (`ArticleViewSet` with
`ArticleSerializer`): `Meta.read_only_fields = ["approved", "author"]`, so
a PUT/PATCH writes title, content and publisher but never touches the
`approved` flag or the author. -/
def apiUpdateArticle (a : Article) (newTitle newContent : String)
    (newPublisher : Option Nat) : Article :=
  { a with
    title := newTitle
    content := newContent
    publisher := newPublisher }

/-- Outcome of the `delete_article` view. `loginRedirect`: the
`user_passes_test(is_staff_member)` decorator failed and redirects to the
login page. `deletedRedirect`: the article was deleted, a success message
queued, redirect to index. `silentRedirect`: the ownership test
`request.user == article.author or request.user.role == "EDITOR"` failed,
so nothing is deleted and the view redirects to index with neither a
success nor an error message. -/
inductive DeleteOutcome where
  | loginRedirect
  | notFound
  | deletedRedirect
  | silentRedirect
deriving DecidableEq

/-- Embeds the `delete_article` view of `news/views.py`, including its
decorators: `login_required`, `user_passes_test(is_staff_member)`, then
the in-view ownership check guarding the actual `article.delete()`
(which cascades to the article's comments; comments are not modelled). -/
def delete_article (db : DB) (actor : User) (articleId : Nat) :
    DeleteOutcome × DB :=
  if !actor.is_authenticated || !is_staff_member actor then
    (.loginRedirect, db)
  else
    match findArticle db articleId with
    | none => (.notFound, db)
    | some article =>
      if actor.id == article.author || actor.role == "EDITOR" then
        (.deletedRedirect, { db with articles :=
          (db.articles.filter (fun b => b.id != article.id)) })
      else
        (.silentRedirect, db)

-- HELPER LEMMAS

lemma findArticle_id (db : DB) (i : Nat) (a : Article)
    (h : findArticle db i = some a) : a.id = i := by
  have h2 := List.find?_some h
  simpa using h2

lemma findArticle_saveArticle (db : DB) (a : Article) :
    findArticle (saveArticle db a) a.id = some a := by
  simpa [findArticle, saveArticle] using
    find?_upsertBy Article.id db.articles a

lemma userSave_groups (db : DB) (u : User) :
    (userSave db u).groups = insert (u.id, u.role) db.groups := by
  simp only [userSave, assign_user_to_group, persistUser]
  split <;> rfl

lemma userSave_users (db : DB) (u : User) :
    (userSave db u).users = upsertBy User.id db.users
      { u with is_staff := u.role == "JOURNALIST" || u.role == "EDITOR" } := by
  simp only [userSave, assign_user_to_group, persistUser]
  split <;> rfl

-- SAMPLE WORLD used by the witness theorems

/-- Sample reader, id 1, follows the journalist (id 2) and the publisher
(id 3) in `newsDB`. -/
def readerRia : User :=
  { id := 1, role := "READER", email := "ria@mail.com",
    is_superuser := false, is_authenticated := true, is_staff := false }

/-- Sample journalist, id 2. -/
def journalistJo : User :=
  { id := 2, role := "JOURNALIST", email := "jo@mail.com",
    is_superuser := false, is_authenticated := true, is_staff := true }

/-- Sample editor, id 3. -/
def editorEve : User :=
  { id := 3, role := "EDITOR", email := "eve@mail.com",
    is_superuser := false, is_authenticated := true, is_staff := true }

/-- Sample superuser whose role is READER, id 4. -/
def superReader : User :=
  { id := 4, role := "READER", email := "root@mail.com",
    is_superuser := true, is_authenticated := true, is_staff := false }

/-- Sample unapproved article by the journalist, overseen by the editor. -/
def draftStory : Article :=
  { id := 10, title := "Draft", content := "Body", author := 2,
    approved := false, publisher := some 3 }

/-- Sample store: the four users, the draft article, the reader following
both the journalist and the publisher, and the reader's auth group. -/
def newsDB : DB :=
  { users := [readerRia, journalistJo, editorEve, superReader]
    articles := [draftStory]
    subscribedPublishers := {(1, 3)}
    subscribedJournalists := {(1, 2)}
    groups := {(1, "READER")} }

-- CLAIM C1

/-- C1: counterexample. At an authenticated superuser whose role is READER
the page-layer predicate `is_journalist` grants access while the API-layer
permission `IsJournalist.has_permission` denies it, so the two entry
layers do not compute the same boolean. -/
theorem c1_counterexample :
    is_journalist superReader = true ∧
    IsJournalist.has_permission superReader = false := by
  decide

/-- C1 (amended): the page-layer predicate `is_journalist` returns true
iff the user is authenticated and (role = JOURNALIST or superuser), while
the API-layer `IsJournalist.has_permission` returns true iff the user is
authenticated and role = JOURNALIST, with no superuser bypass; the two
agree on every user that is not a superuser. -/
theorem c1_journalist_predicates (u : User) :
    (is_journalist u =
      (u.is_authenticated && (u.role == "JOURNALIST" || u.is_superuser))) ∧
    (IsJournalist.has_permission u =
      (u.is_authenticated && u.role == "JOURNALIST")) ∧
    (u.is_superuser = false →
      is_journalist u = IsJournalist.has_permission u) := by
  refine ⟨rfl, rfl, fun h => ?_⟩
  simp [is_journalist, IsJournalist.has_permission, h]

/-- C1 witness: the amended agreement instantiated at the sample
non-superuser journalist. -/
theorem c1_journalist_predicates_witness :
    journalistJo.is_superuser = false ∧
    is_journalist journalistJo = IsJournalist.has_permission journalistJo :=
  ⟨by decide, (c1_journalist_predicates journalistJo).2.2 (by decide)⟩

-- CLAIM C4

/-- C4: for every authenticated user whose role is not READER,
`toggle_subscribe` takes the early Forbidden return ("Only Readers can
subscribe.") for every target id and relation kind, and the store — in
particular both follow relations — is returned unchanged. -/
theorem c4_toggle_forbidden_for_non_readers (db : DB) (actor : User)
    (userId : Nat) (followType : String)
    (hauth : actor.is_authenticated = true)
    (hrole : actor.role ≠ "READER") :
    toggle_subscribe db actor userId followType =
      (.onlyReadersError, db) := by
  simp [toggle_subscribe, hrole]

/-- C4 witness: the sample journalist attempting to subscribe. -/
theorem c4_toggle_forbidden_witness :
    toggle_subscribe newsDB journalistJo 1 "journalist" =
      (.onlyReadersError, newsDB) :=
  c4_toggle_forbidden_for_non_readers newsDB journalistJo 1 "journalist"
    (by decide) (by decide)

-- CLAIM C8

/-- C8: for an acting READER and an existing target user, an unrecognised
relation kind matches neither toggle branch: both follow relations (and
the whole store) are left unchanged and the view completes with the
redirect back, not an error. -/
theorem c8_toggle_unknown_kind_noop (db : DB) (actor : User)
    (userId : Nat) (followType : String) (target : User)
    (hrole : actor.role = "READER")
    (hfind : findUser db userId = some target)
    (h1 : followType ≠ "journalist") (h2 : followType ≠ "publisher") :
    toggle_subscribe db actor userId followType = (.redirectBack, db) := by
  simp [toggle_subscribe, hrole, hfind, h1, h2]

/-- C8 witness: the sample reader posting an unknown kind "newsletter". -/
theorem c8_toggle_unknown_kind_witness :
    toggle_subscribe newsDB readerRia 2 "newsletter" =
      (.redirectBack, newsDB) :=
  c8_toggle_unknown_kind_noop newsDB readerRia 2 "newsletter" journalistJo
    (by decide) (by decide) (by decide) (by decide)

-- CLAIM C3

/-- C3: for an acting READER, an existing target user and a relation kind
in {journalist, publisher}, invoking `toggle_subscribe` twice in
succession on the same (actor, target, kind) restores the entire store,
in particular the follow-edge state that held before the first
invocation: the toggle is an involution on the edge set. -/
theorem c3_toggle_involution (db : DB) (actor : User) (userId : Nat)
    (followType : String) (target : User)
    (hrole : actor.role = "READER")
    (hft : followType = "journalist" ∨ followType = "publisher")
    (hfind : findUser db userId = some target) :
    (toggle_subscribe (toggle_subscribe db actor userId followType).2
      actor userId followType).2 = db := by
  rcases hft with hft | hft <;> subst hft
  · by_cases hmem : (actor.id, target.id) ∈ db.subscribedJournalists
    · have h1 : toggle_subscribe db actor userId "journalist" =
          (.redirectBack, { db with subscribedJournalists :=
            db.subscribedJournalists.erase (actor.id, target.id) }) := by
        simp [toggle_subscribe, hrole, hfind, hmem]
      have hfind2 : findUser { db with subscribedJournalists :=
          db.subscribedJournalists.erase (actor.id, target.id) } userId =
          some target := hfind
      have hmem2 : (actor.id, target.id) ∉
          db.subscribedJournalists.erase (actor.id, target.id) :=
        Finset.not_mem_erase _ _
      rw [h1]
      simp [toggle_subscribe, hrole, hfind2, hmem2,
        Finset.insert_erase hmem]
    · have h1 : toggle_subscribe db actor userId "journalist" =
          (.redirectBack, { db with subscribedJournalists :=
            (insert (actor.id, target.id) db.subscribedJournalists) }) := by
        simp [toggle_subscribe, hrole, hfind, hmem]
      have hfind2 : findUser { db with subscribedJournalists :=
          (insert (actor.id, target.id) db.subscribedJournalists) } userId =
          some target := hfind
      have hmem2 : (actor.id, target.id) ∈
          insert (actor.id, target.id) db.subscribedJournalists :=
        Finset.mem_insert_self _ _
      rw [h1]
      simp [toggle_subscribe, hrole, hfind2, hmem2,
        Finset.erase_insert hmem]
  · by_cases hmem : (actor.id, target.id) ∈ db.subscribedPublishers
    · have h1 : toggle_subscribe db actor userId "publisher" =
          (.redirectBack, { db with subscribedPublishers :=
            db.subscribedPublishers.erase (actor.id, target.id) }) := by
        simp [toggle_subscribe, hrole, hfind, hmem]
      have hfind2 : findUser { db with subscribedPublishers :=
          db.subscribedPublishers.erase (actor.id, target.id) } userId =
          some target := hfind
      have hmem2 : (actor.id, target.id) ∉
          db.subscribedPublishers.erase (actor.id, target.id) :=
        Finset.not_mem_erase _ _
      rw [h1]
      simp [toggle_subscribe, hrole, hfind2, hmem2,
        Finset.insert_erase hmem]
    · have h1 : toggle_subscribe db actor userId "publisher" =
          (.redirectBack, { db with subscribedPublishers :=
            (insert (actor.id, target.id) db.subscribedPublishers) }) := by
        simp [toggle_subscribe, hrole, hfind, hmem]
      have hfind2 : findUser { db with subscribedPublishers :=
          (insert (actor.id, target.id) db.subscribedPublishers) } userId =
          some target := hfind
      have hmem2 : (actor.id, target.id) ∈
          insert (actor.id, target.id) db.subscribedPublishers :=
        Finset.mem_insert_self _ _
      rw [h1]
      simp [toggle_subscribe, hrole, hfind2, hmem2,
        Finset.erase_insert hmem]

/-- C3 witness: the sample reader toggling the journalist follow twice
(starting from the subscribed state) lands back on the original store. -/
theorem c3_toggle_involution_witness :
    (toggle_subscribe (toggle_subscribe newsDB readerRia 2 "journalist").2
      readerRia 2 "journalist").2 = newsDB :=
  c3_toggle_involution newsDB readerRia 2 "journalist" journalistJo
    (by decide) (Or.inl rfl) (by decide)

-- CLAIM C2

/-- C2: in both approval entry points (the `approve_article` page view on
POST and the API `ArticleViewSet.approve` action), when the notification
email send fails the failure is surfaced to the caller as the
`emailFailure` outcome — not swallowed — while the store returned with it
already holds the article with `approved = true`: the approval write is
persisted before the email is attempted and is not rolled back on
notification failure. -/
theorem c2_approval_persists_on_email_failure (host : String) (db : DB)
    (articleId : Nat) (socialOk : Bool) (article : Article)
    (hfind : findArticle db articleId = some article) :
    ((approve_article host db articleId true false socialOk).1 =
        .emailFailure ∧
      findArticle
        (approve_article host db articleId true false socialOk).2
        articleId = some { article with approved := true }) ∧
    ((apiApprove host db articleId false).1 = .emailFailure ∧
      findArticle (apiApprove host db articleId false).2 articleId =
        some { article with approved := true }) := by
  have hid : article.id = articleId := findArticle_id db articleId article hfind
  have hsave : findArticle
      (saveArticle db { article with approved := true }) articleId =
      some { article with approved := true } := by
    rw [← hid]
    exact findArticle_saveArticle db { article with approved := true }
  constructor
  · constructor
    · simp [approve_article, hfind]
    · simpa [approve_article, hfind] using hsave
  · constructor
    · simp [apiApprove, hfind]
    · simpa [apiApprove, hfind] using hsave

/-- C2 witness: approving the sample draft with a failing email send, in
both entry layers. -/
theorem c2_approval_persists_witness :
    ((approve_article "op@mail.com" newsDB 10 true false true).1 =
        .emailFailure ∧
      findArticle (approve_article "op@mail.com" newsDB 10 true false
        true).2 10 = some { draftStory with approved := true }) ∧
    ((apiApprove "op@mail.com" newsDB 10 false).1 = .emailFailure ∧
      findArticle (apiApprove "op@mail.com" newsDB 10 false).2 10 =
        some { draftStory with approved := true }) :=
  c2_approval_persists_on_email_failure "op@mail.com" newsDB 10 true
    draftStory (by decide)

-- CLAIM C10

/-- C10: an authenticated actor who passes the `is_staff_member`
decorator test but is neither the article's author nor of role EDITOR
(e.g. a superuser whose role is READER, or a Journalist targeting another
author's article) falls through the ownership check of `delete_article`:
the store is unchanged (no deletion) and the view returns the plain
redirect to the index, with neither a success nor an error signal. -/
theorem c10_delete_silent_redirect (db : DB) (actor : User)
    (articleId : Nat) (article : Article)
    (hstaff : is_staff_member actor = true)
    (hfind : findArticle db articleId = some article)
    (hauthor : actor.id ≠ article.author)
    (hrole : actor.role ≠ "EDITOR") :
    delete_article db actor articleId = (.silentRedirect, db) := by
  have hauth : actor.is_authenticated = true := by
    have h := hstaff
    simp only [is_staff_member, Bool.and_eq_true] at h
    exact h.1
  simp [delete_article, hauth, hstaff, hfind, hauthor, hrole]

/-- C10 witness: the sample superuser with role READER targeting the
journalist's article. -/
theorem c10_delete_silent_redirect_witness :
    delete_article newsDB superReader 10 = (.silentRedirect, newsDB) :=
  c10_delete_silent_redirect newsDB superReader 10 draftStory
    (by decide) (by decide) (by decide) (by decide)

-- CLAIM C5

/-- C5: the deduplicated recipient set passed to `send_mail` on approval
contains exactly: the operator/system address
(`settings.EMAIL_HOST_USER`), the non-empty emails of the readers
following the article's publisher (when the article has one), and the
non-empty emails of the readers following the article's author; in
particular every reader with a non-empty email who follows the author is
in the set. -/
theorem c5_approval_recipient_set (host : String) (db : DB)
    (a : Article) :
    (∀ e : String, e ∈ approvalRecipientSet host db a ↔
      (e = host ∨
        (∃ pid, a.publisher = some pid ∧ ∃ r ∈ db.users,
          (r.id, pid) ∈ db.subscribedPublishers ∧ r.email ≠ "" ∧
          r.email = e) ∨
        (∃ r ∈ db.users, (r.id, a.author) ∈ db.subscribedJournalists ∧
          r.email ≠ "" ∧ r.email = e))) ∧
    (∀ r ∈ db.users, r.email ≠ "" →
      (r.id, a.author) ∈ db.subscribedJournalists →
      r.email ∈ approvalRecipientSet host db a) := by
  have hiff : ∀ e : String, e ∈ approvalRecipientSet host db a ↔
      (e = host ∨
        (∃ pid, a.publisher = some pid ∧ ∃ r ∈ db.users,
          (r.id, pid) ∈ db.subscribedPublishers ∧ r.email ≠ "" ∧
          r.email = e) ∨
        (∃ r ∈ db.users, (r.id, a.author) ∈ db.subscribedJournalists ∧
          r.email ≠ "" ∧ r.email = e)) := by
    intro e
    cases hpub : a.publisher with
    | none =>
      simp only [approvalRecipientSet, approvalRecipients,
        journalistFollowersOf, subscribedReadersOf, hpub,
        List.mem_dedup, List.mem_append, List.mem_singleton,
        List.mem_map, List.mem_filter, decide_eq_true_eq, bne_iff_ne,
        ne_eq, Option.some.injEq, reduceCtorEq, false_and,
        exists_false, false_or]
      tauto
    | some pid =>
      simp only [approvalRecipientSet, approvalRecipients,
        journalistFollowersOf, subscribedReadersOf, hpub,
        List.mem_dedup, List.mem_append, List.mem_singleton,
        List.mem_map, List.mem_filter, decide_eq_true_eq, bne_iff_ne,
        ne_eq, Option.some.injEq]
      constructor
      · rintro ((he | ⟨r, ⟨⟨hr, hm⟩, hne⟩, hre⟩) |
          ⟨r, ⟨⟨hr, hm⟩, hne⟩, hre⟩)
        · exact Or.inl he
        · exact Or.inr (Or.inl ⟨pid, rfl, r, hr, hm, hne, hre⟩)
        · exact Or.inr (Or.inr ⟨r, hr, hm, hne, hre⟩)
      · rintro (he | ⟨pid', hpid, r, hr, hm, hne, hre⟩ |
          ⟨r, hr, hm, hne, hre⟩)
        · exact Or.inl (Or.inl he)
        · cases hpid
          exact Or.inl (Or.inr ⟨r, ⟨⟨hr, hm⟩, hne⟩, hre⟩)
        · exact Or.inr ⟨r, ⟨⟨hr, hm⟩, hne⟩, hre⟩
  refine ⟨hiff, fun r hr he hm => ?_⟩
  exact (hiff r.email).mpr (Or.inr (Or.inr ⟨r, hr, hm, he, rfl⟩))

/-- C5 witness: in the sample store the reader follows the journalist who
authored the draft, so her address is in the computed recipient set. -/
theorem c5_approval_recipient_set_witness :
    "ria@mail.com" ∈ approvalRecipientSet "op@mail.com" newsDB draftStory :=
  (c5_approval_recipient_set "op@mail.com" newsDB draftStory).2
    readerRia (by decide) (by decide) (by decide)

-- CLAIM C6

lemma userSave_subscribedPublishers_staff (db : DB) (u : User)
    (h : (u.role == "JOURNALIST" || u.role == "EDITOR") = true) :
    (userSave db u).subscribedPublishers =
      db.subscribedPublishers.filter (fun e => e.1 ≠ u.id) := by
  simp only [userSave, assign_user_to_group, persistUser, h, if_true]

lemma userSave_subscribedJournalists_staff (db : DB) (u : User)
    (h : (u.role == "JOURNALIST" || u.role == "EDITOR") = true) :
    (userSave db u).subscribedJournalists =
      db.subscribedJournalists.filter (fun e => e.1 ≠ u.id) := by
  simp only [userSave, assign_user_to_group, persistUser, h, if_true]

/-- C6: after every `User.save`, the persisted row's staff flag equals
(role ∈ {JOURNALIST, EDITOR}); and whenever the saved role is JOURNALIST
or EDITOR, neither follow relation retains any edge with the saved user
as follower — so promoting a READER to EDITOR clears all their follow
edges and sets the staff flag true. -/
theorem c6_user_save_invariants (db : DB) (u : User) :
    findUser (userSave db u) u.id =
      some { u with is_staff :=
        (u.role == "JOURNALIST" || u.role == "EDITOR") } ∧
    ((u.role = "JOURNALIST" ∨ u.role = "EDITOR") →
      (∀ e ∈ (userSave db u).subscribedPublishers, e.1 ≠ u.id) ∧
      (∀ e ∈ (userSave db u).subscribedJournalists, e.1 ≠ u.id)) := by
  constructor
  · show (userSave db u).users.find? (fun v => v.id == u.id) = _
    rw [userSave_users]
    exact find?_upsertBy User.id db.users
      { u with is_staff := (u.role == "JOURNALIST" || u.role == "EDITOR") }
  · intro h
    have hcond : (u.role == "JOURNALIST" || u.role == "EDITOR") = true := by
      rcases h with h | h <;> simp [h]
    constructor
    · intro e he
      rw [userSave_subscribedPublishers_staff db u hcond] at he
      exact (Finset.mem_filter.mp he).2
    · intro e he
      rw [userSave_subscribedJournalists_staff db u hcond] at he
      exact (Finset.mem_filter.mp he).2

/-- Sample promotion: the reader of `newsDB` (who holds one follow edge in
each relation) with role raised to EDITOR. -/
def promotedRia : User := { readerRia with role := "EDITOR" }

/-- C6 witness: saving the promoted reader stores the row with the staff
flag set and drops both of her existing follow edges. -/
theorem c6_user_save_invariants_witness :
    findUser (userSave newsDB promotedRia) 1 =
      some { promotedRia with is_staff := true } ∧
    (1, 3) ∉ (userSave newsDB promotedRia).subscribedPublishers ∧
    (1, 2) ∉ (userSave newsDB promotedRia).subscribedJournalists := by
  refine ⟨?_, fun hmem => ?_, fun hmem => ?_⟩
  · have h := (c6_user_save_invariants newsDB promotedRia).1
    simpa [promotedRia, readerRia] using h
  · exact ((c6_user_save_invariants newsDB promotedRia).2 (Or.inr rfl)).1
      (1, 3) hmem rfl
  · exact ((c6_user_save_invariants newsDB promotedRia).2 (Or.inr rfl)).2
      (1, 2) hmem rfl

-- CLAIM C9

/-- C9: after every `User.save` the saved user belongs to the auth group
named after their current role, every pre-existing group membership
survives the save, and consequently saving a user as READER and then
again as EDITOR leaves them a member of both roles' groups. -/
theorem c9_group_accumulation (db : DB) (u : User) :
    (u.id, u.role) ∈ (userSave db u).groups ∧
    (∀ g ∈ db.groups, g ∈ (userSave db u).groups) ∧
    ((u.id, "READER") ∈
        (userSave (userSave db { u with role := "READER" })
          { u with role := "EDITOR" }).groups ∧
      (u.id, "EDITOR") ∈
        (userSave (userSave db { u with role := "READER" })
          { u with role := "EDITOR" }).groups) := by
  refine ⟨?_, ?_, ?_, ?_⟩
  · rw [userSave_groups]
    exact Finset.mem_insert_self _ _
  · intro g hg
    rw [userSave_groups]
    exact Finset.mem_insert_of_mem hg
  · rw [userSave_groups, userSave_groups]
    exact Finset.mem_insert_of_mem (Finset.mem_insert_self _ _)
  · rw [userSave_groups]
    exact Finset.mem_insert_self _ _

/-- C9 witness: the sample reader keeps her old group across a save, and
a READER-then-EDITOR save sequence leaves her in the EDITOR group while
the READER membership from the store survives. -/
theorem c9_group_accumulation_witness :
    (1, "READER") ∈ (userSave newsDB readerRia).groups ∧
    (1, "EDITOR") ∈
      (userSave (userSave newsDB { readerRia with role := "READER" })
        { readerRia with role := "EDITOR" }).groups :=
  ⟨(c9_group_accumulation newsDB readerRia).2.1 (1, "READER") (by decide),
   (c9_group_accumulation newsDB readerRia).2.2.2⟩

-- CLAIM C7

/-- Sample approved article (author: the journalist, id 2), used to show
that the API update path keeps a true approval flag. -/
def liveStory : Article :=
  { id := 11, title := "Live", content := "Body", author := 2,
    approved := true, publisher := none }

/-- C7: counterexample. The API update path (`ArticleViewSet` update with
`ArticleSerializer`, whose `approved` field is read-only and is never
reset by the update) is an edit path that preserves a true approved flag,
refuting "there is no edit path that preserves a true approved flag". -/
theorem c7_counterexample :
    liveStory.approved = true ∧
    (apiUpdateArticle liveStory "New title" "New body" none).approved =
      true := by
  decide

lemma findArticle_saveArticle' (db : DB) (a : Article) (i : Nat)
    (hid : a.id = i) : findArticle (saveArticle db a) i = some a := by
  subst hid
  exact findArticle_saveArticle db a

lemma edit_article_run (db : DB) (actor : User) (articleId : Nat)
    (newTitle newContent : String) (pub : PubField) (article : Article)
    (hfind : findArticle db articleId = some article)
    (hguard : (actor.id != article.author && actor.role != "EDITOR")
      = false) :
    edit_article db actor articleId true newTitle newContent pub =
      (.updatedRedirect, saveArticle db
        { article with
          title := newTitle
          content := newContent
          publisher := editPublisherField pub article.publisher
          approved := false }) := by
  simp [edit_article, hfind, hguard]

/-- C7 (amended): a successful POST through the page-layer `edit_article`
view always stores the article with `approved = false`, even when it was
previously true; but the API update path leaves the `approved` flag
unchanged (it is read-only to the serializer), so an article edited via
the API keeps a true approved flag. -/
theorem c7_edit_reset (db : DB) (actor : User) (articleId : Nat)
    (newTitle newContent : String) (pub : PubField) (article : Article)
    (hfind : findArticle db articleId = some article)
    (hperm : actor.id = article.author ∨ actor.role = "EDITOR") :
    ((edit_article db actor articleId true newTitle newContent pub).1 =
        .updatedRedirect ∧
      ∃ b, findArticle
        (edit_article db actor articleId true newTitle newContent pub).2
        articleId = some b ∧ b.approved = false) ∧
    (∀ (a : Article) (t c : String) (p : Option Nat),
      (apiUpdateArticle a t c p).approved = a.approved) := by
  have hguard : (actor.id != article.author && actor.role != "EDITOR")
      = false := by
    rcases hperm with h | h <;> simp [h]
  have hid := findArticle_id db articleId article hfind
  have hrun := edit_article_run db actor articleId newTitle newContent
    pub article hfind hguard
  refine ⟨⟨?_, ?_⟩, fun a t c p => rfl⟩
  · rw [hrun]
  · refine ⟨{ article with
        title := newTitle
        content := newContent
        publisher := editPublisherField pub article.publisher
        approved := false }, ?_, rfl⟩
    rw [hrun]
    exact findArticle_saveArticle' db
      { article with
        title := newTitle
        content := newContent
        publisher := editPublisherField pub article.publisher
        approved := false } articleId hid

/-- C7 witness: the author editing the sample draft through the page
view completes with the updated-redirect outcome. -/
theorem c7_edit_reset_witness :
    (edit_article newsDB journalistJo 10 true "T2" "B2" PubField.blank).1 =
      .updatedRedirect :=
  (c7_edit_reset newsDB journalistJo 10 "T2" "B2" PubField.blank draftStory
    (by decide) (Or.inl rfl)).1.1
